import Mathlib

/-!
Verification of the brush-node layer of the TrenchBroom-Polyhedron excerpt.

The development shallowly embeds the three source files
`common/src/Model/BrushNode.cpp`, `common/src/View/CellLayout.cpp` and the
interfaces they use.  Machine floating point values that only matter through
their control flow (hit distances, layout coordinates) are modelled as
rationals, with NaN results modelled as `Option.none`.  The geometry kernel
(`Brush.cpp`) and the scene-graph base (`Node.h`) are not part of the
excerpt; the few behaviours of theirs that the claims depend on are modelled
from the specification and are marked as such in their doc comments.
-/

namespace TrenchBroom

namespace Model

/-- A 3d vector with rational coordinates, standing for `vm::vec3`. -/
structure Vec3 where
  x : ℚ
  y : ℚ
  z : ℚ
deriving DecidableEq

/-- An axis-aligned bounding box, standing for `vm::bbox3`. -/
structure Bounds where
  bbmin : Vec3
  bbmax : Vec3
deriving DecidableEq

/-- A ray, standing for `vm::ray3`. -/
structure Ray where
  origin : Vec3
  dir : Vec3
deriving DecidableEq

/-- A 4x4 transformation matrix, standing for `vm::mat4x4`; its entries are
never inspected by the node layer, only passed through to the kernel. -/
structure Mat4 where
  entries : List ℚ
deriving DecidableEq

/-- A brush face as seen by the node layer: an identity and a tag mask.
The geometric data of `BrushFace` is not inspected by `BrushNode.cpp`
except through kernel calls, which are abstracted separately. -/
structure BrushFace where
  faceId : Nat
  tagMask : Nat
deriving DecidableEq

/-- The brush value owned by a node: its ordered face list, its bounding box,
an abstract summary of the remaining geometric state, and the back-pointer
to the owning node set by `Brush::setNode`. -/
structure Brush where
  faces : List BrushFace
  bounds : Bounds
  shape : Nat
  nodeRef : Option Nat
deriving DecidableEq

/-- Mirrors `Brush::setNode(this)`: the brush records its owning node. -/
def Brush.setNode (i : Nat) (b : Brush) : Brush :=
  { b with nodeRef := some i }

/-- Validity state of a lazily recomputed cache. -/
inductive CacheState where
  | valid
  | invalid
deriving DecidableEq

/-- The node wrapping a brush: its identity, the brush, the render-geometry
vertex cache owned through `m_brushRendererBrushCache`, and the issue cache
inherited from `Node`. -/
structure BrushNode where
  nodeId : Nat
  brush : Brush
  vertexCache : CacheState
  issueCache : CacheState
deriving DecidableEq

/-- Observable events emitted during a node method call. -/
inductive NodeEvent where
  | nodeChangeAcquired
  | nodeChangeReleased
  | boundsChangeAcquired
  | boundsChangeReleased
  | brushMutation
  | vertexCacheInvalidated
  | issuesInvalidated
deriving DecidableEq

/-- The failure raised by the geometry kernel, standing for the exceptions
that brush mutations can throw (`GeometryException` / invalid-brush errors). -/
inductive GeometryException where
  | invalidBrush
deriving DecidableEq

/-- The outcome of a node method: the returned value or propagated failure,
the node state after the call, and the trace of emitted events. -/
abbrev MethodResult (α : Type) := Except GeometryException α × BrushNode × List NodeEvent

/-- Mirrors `BrushNode::invalidateVertexCache`, which delegates to
`m_brushRendererBrushCache->invalidateVertexCache()`: the render-geometry
cache becomes invalid and the invalidation is recorded in the trace. -/
def BrushNode.invalidateVertexCache (n : BrushNode) : BrushNode × List NodeEvent :=
  ({ n with vertexCache := CacheState.invalid }, [NodeEvent.vertexCacheInvalidated])

/-- Modelled from the spec: `Node::invalidateIssues` (in the scene-graph base,
not part of the excerpt) marks the issue cache dirty. -/
def BrushNode.invalidateIssues (n : BrushNode) : BrushNode × List NodeEvent :=
  ({ n with issueCache := CacheState.invalid }, [NodeEvent.issuesInvalidated])

/-- Modelled from the spec: `NotifyNodeChange` and `NotifyPhysicalBoundsChange`
(declared in the scene-graph base `Node.h`, not part of the excerpt) are scoped
guards; the constructors notify on entry in declaration order and the
destructors notify unconditionally on every exit path, including exceptional
ones, in reverse order.  `withNotifications` brackets a method body in both
guards exactly as the source declares them: node change first, then physical
bounds change. -/
def withNotifications {α : Type}
    (body : BrushNode → MethodResult α) (n : BrushNode) : MethodResult α :=
  let r := body n
  (r.1, r.2.1,
    [NodeEvent.nodeChangeAcquired, NodeEvent.boundsChangeAcquired]
      ++ r.2.2
      ++ [NodeEvent.boundsChangeReleased, NodeEvent.nodeChangeReleased])

/-- Modelled from the spec: the geometry kernel (`Brush.cpp`, not part of the
excerpt) exposes the mutation operations that `BrushNode` delegates to.  Each
operation may fail, and may leave the brush partially modified on failure, as
a thrown exception would.  The subtraction query is a const operation
producing the fragment brushes. -/
structure BrushKernel where
  setFacesB : Bounds → List BrushFace → Brush → Except GeometryException Unit × Brush
  moveVerticesB : Bounds → List Vec3 → Vec3 → Bool → Brush →
    Except GeometryException (List Vec3) × Brush
  addVertexB : Bounds → Vec3 → Brush → Except GeometryException Nat × Brush
  removeVerticesB : Bounds → List Vec3 → Brush → Except GeometryException Unit × Brush
  snapVerticesB : Bounds → ℚ → Bool → Brush → Except GeometryException Unit × Brush
  moveEdgesB : Bounds → List (Vec3 × Vec3) → Vec3 → Bool → Brush →
    Except GeometryException (List (Vec3 × Vec3)) × Brush
  moveFacesB : Bounds → List (List Vec3) → Vec3 → Bool → Brush →
    Except GeometryException (List (List Vec3)) × Brush
  intersectB : Bounds → Brush → Brush → Except GeometryException Unit × Brush
  findIntegerPlanePointsB : Bounds → Brush → Except GeometryException Unit × Brush
  transformB : Mat4 → Bool → Bounds → Brush → Except GeometryException Unit × Brush
  subtractB : Bounds → String → List Brush → Brush → List Brush

/-- Modelled from the spec: every brush mutation funnels through a single
mutate-then-invalidate boundary — the kernel operation runs on the owned
brush and, on completion, the owning node's render-geometry cache is
invalidated through the back-pointer.  On failure the exception propagates
before the invalidation, leaving whatever partial brush state the kernel
produced. -/
def BrushNode.runBrushMutation {α : Type}
    (op : Brush → Except GeometryException α × Brush) (n : BrushNode) : MethodResult α :=
  let r := op n.brush
  match r.1 with
  | Except.ok a =>
    let n1 : BrushNode := { n with brush := r.2 }
    let p := n1.invalidateVertexCache
    (Except.ok a, p.1, NodeEvent.brushMutation :: p.2)
  | Except.error e =>
    (Except.error e, { n with brush := r.2 }, [NodeEvent.brushMutation])

/-- Mirrors `BrushNode::setBrush`: inside both notification guards, the brush
is replaced, its back-pointer is set to this node, and the issue and vertex
caches are invalidated. -/
def BrushNode.setBrush (b : Brush) (n : BrushNode) : MethodResult Unit :=
  withNotifications (fun n0 =>
    let n1 : BrushNode := { n0 with brush := Brush.setNode n0.nodeId b }
    let p1 := n1.invalidateIssues
    let p2 := p1.1.invalidateVertexCache
    (Except.ok (), p2.1, NodeEvent.brushMutation :: (p1.2 ++ p2.2))) n

/-- Mirrors `BrushNode::setFaces`: inside both notification guards, the kernel
replaces the face set; on completion the issue and vertex caches are
invalidated (the plain calls that follow the mutation in the source are
skipped when the mutation throws). -/
def BrushNode.setFaces (K : BrushKernel) (worldBounds : Bounds) (fs : List BrushFace)
    (n : BrushNode) : MethodResult Unit :=
  withNotifications (fun n0 =>
    let r := K.setFacesB worldBounds fs n0.brush
    match r.1 with
    | Except.ok _ =>
      let n1 : BrushNode := { n0 with brush := r.2 }
      let p1 := n1.invalidateIssues
      let p2 := p1.1.invalidateVertexCache
      (Except.ok (), p2.1, NodeEvent.brushMutation :: (p1.2 ++ p2.2))
    | Except.error e =>
      (Except.error e, { n0 with brush := r.2 }, [NodeEvent.brushMutation])) n

/-- Mirrors `BrushNode::moveVertices`: both guards, then delegation to the
kernel. -/
def BrushNode.moveVertices (K : BrushKernel) (worldBounds : Bounds)
    (vertexPositions : List Vec3) (delta : Vec3) (uvLock : Bool)
    (n : BrushNode) : MethodResult (List Vec3) :=
  withNotifications
    (BrushNode.runBrushMutation (K.moveVerticesB worldBounds vertexPositions delta uvLock)) n

/-- Mirrors `BrushNode::addVertex`. -/
def BrushNode.addVertex (K : BrushKernel) (worldBounds : Bounds) (position : Vec3)
    (n : BrushNode) : MethodResult Nat :=
  withNotifications (BrushNode.runBrushMutation (K.addVertexB worldBounds position)) n

/-- Mirrors `BrushNode::removeVertices`. -/
def BrushNode.removeVertices (K : BrushKernel) (worldBounds : Bounds)
    (vertexPositions : List Vec3) (n : BrushNode) : MethodResult Unit :=
  withNotifications (BrushNode.runBrushMutation (K.removeVerticesB worldBounds vertexPositions)) n

/-- Mirrors `BrushNode::snapVertices`. -/
def BrushNode.snapVertices (K : BrushKernel) (worldBounds : Bounds) (snapToF : ℚ)
    (uvLock : Bool) (n : BrushNode) : MethodResult Unit :=
  withNotifications (BrushNode.runBrushMutation (K.snapVerticesB worldBounds snapToF uvLock)) n

/-- Mirrors `BrushNode::moveEdges`. -/
def BrushNode.moveEdges (K : BrushKernel) (worldBounds : Bounds)
    (edgePositions : List (Vec3 × Vec3)) (delta : Vec3) (uvLock : Bool)
    (n : BrushNode) : MethodResult (List (Vec3 × Vec3)) :=
  withNotifications
    (BrushNode.runBrushMutation (K.moveEdgesB worldBounds edgePositions delta uvLock)) n

/-- Mirrors `BrushNode::moveFaces`. -/
def BrushNode.moveFaces (K : BrushKernel) (worldBounds : Bounds)
    (facePositions : List (List Vec3)) (delta : Vec3) (uvLock : Bool)
    (n : BrushNode) : MethodResult (List (List Vec3)) :=
  withNotifications
    (BrushNode.runBrushMutation (K.moveFacesB worldBounds facePositions delta uvLock)) n

/-- Mirrors `BrushNode::intersect`: the receiver is mutated in place, bracketed
by both guards; the argument node is only read (`brush->m_brush` is passed to
the kernel by const reference) and is returned unchanged. -/
def BrushNode.intersect (K : BrushKernel) (worldBounds : Bounds)
    (n other : BrushNode) : MethodResult Unit × BrushNode :=
  (withNotifications (BrushNode.runBrushMutation (K.intersectB worldBounds other.brush)) n,
    other)

/-- Mirrors `BrushNode::findIntegerPlanePoints`. -/
def BrushNode.findIntegerPlanePoints (K : BrushKernel) (worldBounds : Bounds)
    (n : BrushNode) : MethodResult Unit :=
  withNotifications (BrushNode.runBrushMutation (K.findIntegerPlanePointsB worldBounds)) n

/-- Mirrors `BrushNode::doTransform`. -/
def BrushNode.doTransform (K : BrushKernel) (transformation : Mat4)
    (lockTextures : Bool) (worldBounds : Bounds) (n : BrushNode) : MethodResult Unit :=
  withNotifications
    (BrushNode.runBrushMutation (K.transformB transformation lockTextures worldBounds)) n

/-- Modelled from the spec: the read-only query surface of the geometry kernel
(`Brush.cpp`, not part of the excerpt).  Each query is a pure function of the
brush value, as the const delegation in `BrushNode.cpp` requires. -/
structure BrushQueries where
  faceCountQ : Brush → Nat
  vertexCountQ : Brush → Nat
  verticesQ : Brush → List Vec3
  vertexPositionsQ : Brush → List Vec3
  edgeCountQ : Brush → Nat
  edgesQ : Brush → List (Vec3 × Vec3)
  closedQ : Brush → Bool
  fullySpecifiedQ : Brush → Bool
  containsPointQ : Brush → Vec3 → Bool
  hasVertexQ : Brush → Vec3 → ℚ → Bool
  hasEdgeQ : Brush → Vec3 × Vec3 → ℚ → Bool
  hasFaceQ : Brush → List Vec3 → ℚ → Bool
  findFaceQ : Brush → String → Option BrushFace
  incidentFacesQ : Brush → Nat → List BrushFace
  canMoveVerticesQ : Brush → Bounds → List Vec3 → Vec3 → Bool
  canAddVertexQ : Brush → Bounds → Vec3 → Bool
  canRemoveVerticesQ : Brush → Bounds → List Vec3 → Bool
  canSnapVerticesQ : Brush → Bounds → ℚ → Bool
  canMoveEdgesQ : Brush → Bounds → List (Vec3 × Vec3) → Vec3 → Bool
  canMoveFacesQ : Brush → Bounds → List (List Vec3) → Vec3 → Bool
  canTransformQ : Brush → Mat4 → Bounds → Bool

/-- Mirrors `BrushNode::faceCount`: a const delegation to the kernel query. -/
def BrushNode.faceCount (Q : BrushQueries) (n : BrushNode) : Nat × BrushNode × List NodeEvent :=
  (Q.faceCountQ n.brush, n, [])

/-- Mirrors `BrushNode::faces`: returns the brush face list. -/
def BrushNode.getFaces (n : BrushNode) : List BrushFace × BrushNode × List NodeEvent :=
  (n.brush.faces, n, [])

/-- Mirrors `BrushNode::vertexCount`. -/
def BrushNode.vertexCount (Q : BrushQueries) (n : BrushNode) : Nat × BrushNode × List NodeEvent :=
  (Q.vertexCountQ n.brush, n, [])

/-- Mirrors `BrushNode::vertices`. -/
def BrushNode.vertices (Q : BrushQueries) (n : BrushNode) :
    List Vec3 × BrushNode × List NodeEvent :=
  (Q.verticesQ n.brush, n, [])

/-- Mirrors `BrushNode::vertexPositions`. -/
def BrushNode.vertexPositions (Q : BrushQueries) (n : BrushNode) :
    List Vec3 × BrushNode × List NodeEvent :=
  (Q.vertexPositionsQ n.brush, n, [])

/-- Mirrors `BrushNode::edgeCount`. -/
def BrushNode.edgeCount (Q : BrushQueries) (n : BrushNode) : Nat × BrushNode × List NodeEvent :=
  (Q.edgeCountQ n.brush, n, [])

/-- Mirrors `BrushNode::edges`. -/
def BrushNode.edges (Q : BrushQueries) (n : BrushNode) :
    List (Vec3 × Vec3) × BrushNode × List NodeEvent :=
  (Q.edgesQ n.brush, n, [])

/-- Mirrors `BrushNode::closed`. -/
def BrushNode.closed (Q : BrushQueries) (n : BrushNode) : Bool × BrushNode × List NodeEvent :=
  (Q.closedQ n.brush, n, [])

/-- Mirrors `BrushNode::fullySpecified`. -/
def BrushNode.fullySpecified (Q : BrushQueries) (n : BrushNode) :
    Bool × BrushNode × List NodeEvent :=
  (Q.fullySpecifiedQ n.brush, n, [])

/-- Mirrors `BrushNode::containsPoint`. -/
def BrushNode.containsPoint (Q : BrushQueries) (point : Vec3) (n : BrushNode) :
    Bool × BrushNode × List NodeEvent :=
  (Q.containsPointQ n.brush point, n, [])

/-- Mirrors `BrushNode::hasVertex`. -/
def BrushNode.hasVertex (Q : BrushQueries) (position : Vec3) (epsilon : ℚ) (n : BrushNode) :
    Bool × BrushNode × List NodeEvent :=
  (Q.hasVertexQ n.brush position epsilon, n, [])

/-- Mirrors `BrushNode::hasEdge`. -/
def BrushNode.hasEdge (Q : BrushQueries) (edge : Vec3 × Vec3) (epsilon : ℚ) (n : BrushNode) :
    Bool × BrushNode × List NodeEvent :=
  (Q.hasEdgeQ n.brush edge epsilon, n, [])

/-- Mirrors `BrushNode::hasFace` (the polygon overload). -/
def BrushNode.hasFace (Q : BrushQueries) (face : List Vec3) (epsilon : ℚ) (n : BrushNode) :
    Bool × BrushNode × List NodeEvent :=
  (Q.hasFaceQ n.brush face epsilon, n, [])

/-- Mirrors `BrushNode::findFace` (the texture-name overload). -/
def BrushNode.findFace (Q : BrushQueries) (textureName : String) (n : BrushNode) :
    Option BrushFace × BrushNode × List NodeEvent :=
  (Q.findFaceQ n.brush textureName, n, [])

/-- Mirrors `BrushNode::incidentFaces`. -/
def BrushNode.incidentFaces (Q : BrushQueries) (vertex : Nat) (n : BrushNode) :
    List BrushFace × BrushNode × List NodeEvent :=
  (Q.incidentFacesQ n.brush vertex, n, [])

/-- Mirrors `BrushNode::canMoveVertices`. -/
def BrushNode.canMoveVertices (Q : BrushQueries) (worldBounds : Bounds)
    (vs : List Vec3) (delta : Vec3) (n : BrushNode) : Bool × BrushNode × List NodeEvent :=
  (Q.canMoveVerticesQ n.brush worldBounds vs delta, n, [])

/-- Mirrors `BrushNode::canAddVertex`. -/
def BrushNode.canAddVertex (Q : BrushQueries) (worldBounds : Bounds) (position : Vec3)
    (n : BrushNode) : Bool × BrushNode × List NodeEvent :=
  (Q.canAddVertexQ n.brush worldBounds position, n, [])

/-- Mirrors `BrushNode::canRemoveVertices`. -/
def BrushNode.canRemoveVertices (Q : BrushQueries) (worldBounds : Bounds)
    (vs : List Vec3) (n : BrushNode) : Bool × BrushNode × List NodeEvent :=
  (Q.canRemoveVerticesQ n.brush worldBounds vs, n, [])

/-- Mirrors `BrushNode::canSnapVertices`. -/
def BrushNode.canSnapVertices (Q : BrushQueries) (worldBounds : Bounds) (snapToF : ℚ)
    (n : BrushNode) : Bool × BrushNode × List NodeEvent :=
  (Q.canSnapVerticesQ n.brush worldBounds snapToF, n, [])

/-- Mirrors `BrushNode::canMoveEdges`. -/
def BrushNode.canMoveEdges (Q : BrushQueries) (worldBounds : Bounds)
    (es : List (Vec3 × Vec3)) (delta : Vec3) (n : BrushNode) :
    Bool × BrushNode × List NodeEvent :=
  (Q.canMoveEdgesQ n.brush worldBounds es delta, n, [])

/-- Mirrors `BrushNode::canMoveFaces`. -/
def BrushNode.canMoveFaces (Q : BrushQueries) (worldBounds : Bounds)
    (ps : List (List Vec3)) (delta : Vec3) (n : BrushNode) :
    Bool × BrushNode × List NodeEvent :=
  (Q.canMoveFacesQ n.brush worldBounds ps delta, n, [])

/-- Mirrors `BrushNode::canTransform`. -/
def BrushNode.canTransform (Q : BrushQueries) (transformation : Mat4)
    (worldBounds : Bounds) (n : BrushNode) : Bool × BrushNode × List NodeEvent :=
  (Q.canTransformQ n.brush transformation worldBounds, n, [])

/-- Modelled from the spec: the scene-graph layer supplies a factory capability
that constructs a new owning node from a resulting brush
(`ModelFactory::createBrush`). -/
structure ModelFactory where
  createBrush : Brush → BrushNode

/-- Mirrors `BrushNode::subtract` (the list overload): a const method that maps
the subtrahend nodes to their brushes, asks the kernel for the fragment
brushes, and wraps each fragment in a new node obtained from the factory. -/
def BrushNode.subtract (K : BrushKernel) (factory : ModelFactory) (worldBounds : Bounds)
    (defaultTextureName : String) (subtrahends : List BrushNode) (n : BrushNode) :
    List BrushNode × BrushNode × List NodeEvent :=
  let subtrahendBrushes := subtrahends.map (fun node => node.brush)
  let result := K.subtractB worldBounds defaultTextureName subtrahendBrushes n.brush
  (result.map factory.createBrush, n, [])

/-- Mirrors the `BrushNode(Brush)` constructor: a fresh renderer cache is
allocated (initially holding no validated geometry), the brush is moved in and
its back-pointer set to the new node via `setNode(this)`. -/
def BrushNode.mkFromBrush (freshId : Nat) (b : Brush) : BrushNode :=
  { nodeId := freshId
    brush := Brush.setNode freshId b
    vertexCache := CacheState.invalid
    issueCache := CacheState.invalid }

/-- Mirrors `BrushNode::doClone`: `new BrushNode(m_brush)` copies the owned
brush by value into a freshly allocated node. -/
def BrushNode.doClone (freshId : Nat) (n : BrushNode) : BrushNode :=
  BrushNode.mkFromBrush freshId n.brush

/-- A heap of brush nodes addressed by identity, with a fresh-identity
allocator; used to express that a clone owns an independent copy of the
brush. -/
structure NodeStore where
  nodes : Nat → Option BrushNode
  nextId : Nat

/-- A store is well formed when every allocated identity is below the
allocator counter. -/
def NodeStore.WF (s : NodeStore) : Prop :=
  ∀ i, s.nextId ≤ i → s.nodes i = none

/-- Clones the node stored at `origId` into a freshly allocated identity. -/
def NodeStore.cloneNode (s : NodeStore) (origId : Nat) : NodeStore :=
  match s.nodes origId with
  | none => s
  | some orig =>
    { nodes := fun i => if i = s.nextId then some (orig.doClone s.nextId) else s.nodes i
      nextId := s.nextId + 1 }

/-- Applies an arbitrary node mutation to the node stored at `i`. -/
def NodeStore.modifyAt (s : NodeStore) (i : Nat) (f : BrushNode → BrushNode) : NodeStore :=
  { s with nodes := fun j => if j = i then (s.nodes j).map f else s.nodes j }

/-- The scene-graph node kinds that a visitor dispatches over. -/
inductive NodeKind where
  | world
  | layer
  | group
  | entity
  | brush
deriving DecidableEq

/-- A scene-graph node as seen by the ancestor walk: an identity and a kind. -/
structure SceneNode where
  sceneId : Nat
  kind : NodeKind
deriving DecidableEq

/-- Mirrors the `FindBrushOwner` visitor of `BrushNode.cpp`: visiting a world
or entity node records it as the result and cancels the walk; layer, group
and brush nodes are skipped. -/
def FindBrushOwner.visit (n : SceneNode) : Option SceneNode × Bool :=
  match n.kind with
  | NodeKind.world => (some n, true)
  | NodeKind.layer => (none, false)
  | NodeKind.group => (none, false)
  | NodeKind.entity => (some n, true)
  | NodeKind.brush => (none, false)

/-- Modelled from the spec: `Node::acceptAndEscalate` (scene-graph base, not
part of the excerpt) performs an explicit ownership-chain walk — it visits the
receiver, then each further ancestor in turn, stopping as soon as the visitor
cancels. -/
def acceptAndEscalateFindOwner : List SceneNode → Option SceneNode
  | [] => none
  | n :: rest =>
    match FindBrushOwner.visit n with
    | (r, true) => r
    | (_, false) => acceptAndEscalateFindOwner rest

/-- Mirrors `BrushNode::entity`: with no parent the result is null; otherwise
the `FindBrushOwner` visitor walks the chain starting at the parent and the
result, if any, is returned.  The ancestor chain is given nearest first. -/
def BrushNode.entity (ancestors : List SceneNode) : Option SceneNode :=
  match ancestors with
  | [] => none
  | parent :: rest =>
    match acceptAndEscalateFindOwner (parent :: rest) with
    | none => none
    | some r => some r

/-- The first ancestor that is an entity or world node, written directly as a
search; used to state what the visitor walk computes. -/
def firstEntityOrWorldAncestor (ancestors : List SceneNode) : Option SceneNode :=
  ancestors.find? (fun a => a.kind == NodeKind.world || a.kind == NodeKind.entity)

/-- The hit type tag `BrushNode::BrushHitType` allocated from
`HitType::freeType()`. -/
def brushHitType : Nat := 1

/-- A pick hit as added to the pick result: hit type, distance, hit point and
the face handle (node identity and face identity). -/
structure Hit where
  hitType : Nat
  distance : ℚ
  hitPoint : Vec3
  hitNodeId : Nat
  hitFaceId : Nat
deriving DecidableEq

/-- Mirrors `vm::point_at_distance`: the point reached after travelling
`d` along the ray. -/
def pointAtDistance (ray : Ray) (d : ℚ) : Vec3 :=
  { x := ray.origin.x + d * ray.dir.x
    y := ray.origin.y + d * ray.dir.y
    z := ray.origin.z + d * ray.dir.z }

/-- Mirrors the face loop of `BrushNode::findFaceHit`: the first face, in face
order, whose ray intersection distance is defined (not NaN, modelled as
`some`). -/
def firstFaceHit (hd : BrushFace → Ray → Option ℚ) :
    List BrushFace → Ray → Option (BrushFace × ℚ)
  | [], _ => none
  | f :: rest, ray =>
    match hd f ray with
    | some d => some (f, d)
    | none => firstFaceHit hd rest ray

/-- Mirrors `BrushNode::findFaceHit`: if the ray misses the node's bounding
box (`vm::intersect_ray_bbox` returns NaN, modelled as `none`) no face is
tested; otherwise the first face with a defined intersection distance is
returned.  `irb` abstracts `vm::intersect_ray_bbox` and `hd` abstracts
`BrushFace::intersectWithRay`, both external to the excerpt. -/
def BrushNode.findFaceHit (irb : Ray → Bounds → Option ℚ)
    (hd : BrushFace → Ray → Option ℚ) (n : BrushNode) (ray : Ray) :
    Option (BrushFace × ℚ) :=
  match irb ray n.brush.bounds with
  | none => none
  | some _ => firstFaceHit hd n.brush.faces ray

/-- Mirrors `BrushNode::doPick`: when `findFaceHit` produced a face, one hit is
added at the point that distance reaches along the ray; otherwise the pick
result is left alone. -/
def BrushNode.doPick (irb : Ray → Bounds → Option ℚ)
    (hd : BrushFace → Ray → Option ℚ) (n : BrushNode) (ray : Ray)
    (pickResult : List Hit) : List Hit :=
  match BrushNode.findFaceHit irb hd n ray with
  | some fd =>
    pickResult ++
      [{ hitType := brushHitType
         distance := fd.2
         hitPoint := pointAtDistance ray fd.2
         hitNodeId := n.nodeId
         hitFaceId := fd.1.faceId }]
  | none => pickResult

/-- The first face, in order, whose hit distance is defined, written directly
as a search; used to state what the face loop computes. -/
def firstDefinedHit (hd : BrushFace → Ray → Option ℚ) (fs : List BrushFace) (ray : Ray) :
    Option (BrushFace × ℚ) :=
  match fs.find? (fun g => (hd g ray).isSome) with
  | none => none
  | some g =>
    match hd g ray with
    | some d => some (g, d)
    | none => none

/-- Mirrors `TagType::AnyType`: the 64-bit tag mask with all bits set. -/
def tagTypeAnyType : Nat := 2 ^ 64 - 1

/-- Modelled from the spec: `Taggable::hasAnyTag` (tag system, not part of the
excerpt) — whether any tag bit is set on the face. -/
def BrushFace.hasAnyTag (f : BrushFace) : Bool :=
  decide (f.tagMask ≠ 0)

/-- Modelled from the spec: `Taggable::hasTag` — whether the face has any tag
within the given mask. -/
def BrushFace.hasTag (f : BrushFace) (mask : Nat) : Bool :=
  decide (f.tagMask &&& mask ≠ 0)

/-- Mirrors `BrushNode::allFacesHaveAnyTagInMask`: the conjunction of all face
tag masks, starting from the all-bits-set mask, intersected with the query
mask. -/
def BrushNode.allFacesHaveAnyTagInMask (n : BrushNode) (tagMask : Nat) : Bool :=
  decide ((n.brush.faces.foldl (fun acc f => acc &&& f.tagMask) tagTypeAnyType) &&& tagMask ≠ 0)

/-- Mirrors `BrushNode::anyFaceHasAnyTag`: the early-returning loop over the
faces. -/
def BrushNode.anyFaceHasAnyTag (n : BrushNode) : Bool :=
  n.brush.faces.any BrushFace.hasAnyTag

/-- Mirrors `BrushNode::anyFacesHaveAnyTagInMask`. -/
def BrushNode.anyFacesHaveAnyTagInMask (n : BrushNode) (tagMask : Nat) : Bool :=
  n.brush.faces.any (fun f => f.hasTag tagMask)

end Model

namespace View

/-- Mirrors `LayoutBounds`: position and size, with the derived accessors
`left`, `top`, `right`, `bottom`.  Coordinates are modelled as rationals. -/
structure LayoutBounds where
  x : ℚ
  y : ℚ
  width : ℚ
  height : ℚ
deriving DecidableEq

/-- Mirrors `LayoutBounds::left`. -/
def LayoutBounds.left (b : LayoutBounds) : ℚ := b.x

/-- Mirrors `LayoutBounds::top`. -/
def LayoutBounds.top (b : LayoutBounds) : ℚ := b.y

/-- Mirrors `LayoutBounds::right`. -/
def LayoutBounds.right (b : LayoutBounds) : ℚ := b.x + b.width

/-- Mirrors `LayoutBounds::bottom`. -/
def LayoutBounds.bottom (b : LayoutBounds) : ℚ := b.y + b.height

/-- Mirrors `LayoutCell`: the stored item dimensions together with the layout
computed by `doLayout`. -/
structure LayoutCell where
  cx : ℚ
  cy : ℚ
  itemWidth : ℚ
  itemHeight : ℚ
  titleWidth : ℚ
  titleHeight : ℚ
  titleMargin : ℚ
  scale : ℚ
  cellBounds : LayoutBounds
  itemBounds : LayoutBounds
  titleBounds : LayoutBounds
deriving DecidableEq

/-- Mirrors `LayoutCell::doLayout` (as invoked by the constructor): computes
the scale and the cell, item and title bounds from the item and title
dimensions and the cell constraints. -/
def LayoutCell.doLayout (x y itemWidth itemHeight titleWidth titleHeight titleMargin
    maxUpScale minWidth maxWidth minHeight maxHeight : ℚ) : LayoutCell :=
  let scale := min (min (maxWidth / itemWidth) (maxHeight / itemHeight)) maxUpScale
  let scaledItemWidth := scale * itemWidth
  let scaledItemHeight := scale * itemHeight
  let clippedTitleWidth := min titleWidth maxWidth
  let cellWidth := max minWidth (max scaledItemWidth clippedTitleWidth)
  let cellHeight := max minHeight (max minHeight scaledItemHeight + titleHeight + titleMargin)
  let itemY := y + max 0 (cellHeight - titleHeight - scaledItemHeight - titleMargin)
  { cx := x
    cy := y
    itemWidth := itemWidth
    itemHeight := itemHeight
    titleWidth := titleWidth
    titleHeight := titleHeight
    titleMargin := titleMargin
    scale := scale
    cellBounds := { x := x, y := y, width := cellWidth, height := cellHeight }
    itemBounds := { x := x + (cellWidth - scaledItemWidth) / 2
                    y := itemY
                    width := scaledItemWidth
                    height := scaledItemHeight }
    titleBounds := { x := x + (cellWidth - clippedTitleWidth) / 2
                     y := itemY + scaledItemHeight + titleMargin
                     width := clippedTitleWidth
                     height := titleHeight } }

/-- Mirrors `LayoutCell::updateLayout`: relayouts the cell at its stored
position and dimensions under new constraints. -/
def LayoutCell.updateLayout (c : LayoutCell) (maxUpScale minWidth maxWidth
    minHeight maxHeight : ℚ) : LayoutCell :=
  LayoutCell.doLayout c.cx c.cy c.itemWidth c.itemHeight c.titleWidth c.titleHeight
    c.titleMargin maxUpScale minWidth maxWidth minHeight maxHeight

/-- Mirrors `LayoutRow`: the layout constraints, the row bounds and the cells
added so far. -/
structure LayoutRow where
  cellMargin : ℚ
  titleMargin : ℚ
  maxWidth : ℚ
  maxCells : Nat
  maxUpScale : ℚ
  minCellWidth : ℚ
  maxCellWidth : ℚ
  minCellHeight : ℚ
  maxCellHeight : ℚ
  rowBounds : LayoutBounds
  cells : List LayoutCell
deriving DecidableEq

/-- Mirrors the `LayoutRow` constructor: empty cell list and zero-sized bounds
at the given position. -/
def LayoutRow.make (x y cellMargin titleMargin maxWidth : ℚ) (maxCells : Nat)
    (maxUpScale minCellWidth maxCellWidth minCellHeight maxCellHeight : ℚ) : LayoutRow :=
  { cellMargin := cellMargin
    titleMargin := titleMargin
    maxWidth := maxWidth
    maxCells := maxCells
    maxUpScale := maxUpScale
    minCellWidth := minCellWidth
    maxCellWidth := maxCellWidth
    minCellHeight := minCellHeight
    maxCellHeight := maxCellHeight
    rowBounds := { x := x, y := y, width := 0, height := 0 }
    cells := [] }

/-- The candidate cell a row would append, laid out at the row's right edge;
shared by `canAddItem` and `addItem`, which both compute it the same way. -/
def LayoutRow.candidateCell (r : LayoutRow) (itemWidth itemHeight titleWidth
    titleHeight : ℚ) : LayoutCell :=
  let x := r.rowBounds.right + (if r.cells.isEmpty then 0 else r.cellMargin)
  LayoutCell.doLayout x r.rowBounds.top itemWidth itemHeight titleWidth titleHeight
    r.titleMargin r.maxUpScale r.minCellWidth r.maxCellWidth r.minCellHeight r.maxCellHeight

/-- The row width after appending the candidate cell, including the cell
margin when the row is not empty; shared by `canAddItem` and `addItem`. -/
def LayoutRow.extendedWidth (r : LayoutRow) (itemWidth itemHeight titleWidth
    titleHeight : ℚ) : ℚ :=
  r.rowBounds.width + (if r.cells.isEmpty then 0 else r.cellMargin)
    + (r.candidateCell itemWidth itemHeight titleWidth titleHeight).cellBounds.width

/-- Mirrors `LayoutRow::canAddItem`: lays the candidate cell out, then rejects
when an unlimited-cell-count row would overflow `maxWidth` while already
holding a cell, or when a cell-limited row already holds `maxCells - 1`
cells. -/
def LayoutRow.canAddItem (r : LayoutRow) (itemWidth itemHeight titleWidth
    titleHeight : ℚ) : Bool :=
  if r.maxCells = 0
      ∧ r.extendedWidth itemWidth itemHeight titleWidth titleHeight > r.maxWidth
      ∧ ¬r.cells.isEmpty then false
  else if 0 < r.maxCells ∧ r.maxCells - 1 ≤ r.cells.length then false
  else true

/-- Mirrors `LayoutRow::readjustItems`: every cell is relayouted under the
current constraints. -/
def LayoutRow.readjustItems (r : LayoutRow) : LayoutRow :=
  { r with cells := r.cells.map (fun c =>
      c.updateLayout r.maxUpScale r.minCellWidth r.maxCellWidth r.minCellHeight
        r.maxCellHeight) }

/-- Mirrors `LayoutRow::addItem`: lays the candidate cell out, raises the
row's minimum cell height and readjusts the existing cells when the new item
row is taller, extends the row bounds, and appends the cell. -/
def LayoutRow.addItem (r : LayoutRow) (itemWidth itemHeight titleWidth
    titleHeight : ℚ) : LayoutRow :=
  let cell := r.candidateCell itemWidth itemHeight titleWidth titleHeight
  let width := r.extendedWidth itemWidth itemHeight titleWidth titleHeight
  let newItemRowHeight := cell.cellBounds.height - cell.titleBounds.height - r.titleMargin
  let r2 :=
    if newItemRowHeight > r.minCellHeight then
      LayoutRow.readjustItems { r with minCellHeight := newItemRowHeight }
    else r
  { r2 with
    rowBounds := { x := r2.rowBounds.left
                   y := r2.rowBounds.top
                   width := width
                   height := max r2.rowBounds.height cell.cellBounds.height }
    cells := r2.cells ++ [cell] }

/-- The rows reachable under the `canAddItem`/`addItem` protocol: freshly
constructed rows, and rows extended by `addItem` only when `canAddItem`
agreed. -/
inductive ReachableRow : LayoutRow → Prop where
  | init (x y cellMargin titleMargin maxWidth : ℚ) (maxCells : Nat)
      (maxUpScale minCellWidth maxCellWidth minCellHeight maxCellHeight : ℚ) :
      ReachableRow (LayoutRow.make x y cellMargin titleMargin maxWidth maxCells
        maxUpScale minCellWidth maxCellWidth minCellHeight maxCellHeight)
  | add (r : LayoutRow) (itemWidth itemHeight titleWidth titleHeight : ℚ)
      (hr : ReachableRow r)
      (hc : r.canAddItem itemWidth itemHeight titleWidth titleHeight = true) :
      ReachableRow (r.addItem itemWidth itemHeight titleWidth titleHeight)

end View

namespace Model

/-- An event trace is properly bracketed when it opens by acquiring the
node-change guard and then the physical-bounds guard, runs the brush mutation,
and closes by releasing the guards in reverse order, with nothing but cache
invalidations in between. -/
def properlyBracketed (tr : List NodeEvent) : Prop :=
  ∃ mid,
    tr = NodeEvent.nodeChangeAcquired :: NodeEvent.boundsChangeAcquired ::
      ((NodeEvent.brushMutation :: mid)
        ++ [NodeEvent.boundsChangeReleased, NodeEvent.nodeChangeReleased])
    ∧ ∀ e ∈ mid,
        e = NodeEvent.vertexCacheInvalidated ∨ e = NodeEvent.issuesInvalidated

/-- Both notifications fire exactly once and bracket the brush mutation. -/
def firesNotificationsOnce (tr : List NodeEvent) : Prop :=
  properlyBracketed tr
    ∧ tr.count NodeEvent.nodeChangeAcquired = 1
    ∧ tr.count NodeEvent.nodeChangeReleased = 1
    ∧ tr.count NodeEvent.boundsChangeAcquired = 1
    ∧ tr.count NodeEvent.boundsChangeReleased = 1

/-- A concrete bounding box used to evaluate the theorems on closed inputs. -/
def sampleBounds : Bounds :=
  { bbmin := { x := 0, y := 0, z := 0 }, bbmax := { x := 64, y := 64, z := 64 } }

/-- A concrete brush with no faces. -/
def sampleBrush : Brush :=
  { faces := [], bounds := sampleBounds, shape := 0, nodeRef := none }

/-- A concrete node owning `sampleBrush`, with both caches valid. -/
def sampleNode : BrushNode :=
  { nodeId := 0, brush := sampleBrush, vertexCache := CacheState.valid
    issueCache := CacheState.valid }

/-- A concrete brush with two tagged faces. -/
def sampleTaggedBrush : Brush :=
  { faces := [{ faceId := 0, tagMask := 3 }, { faceId := 1, tagMask := 1 }]
    bounds := sampleBounds, shape := 0, nodeRef := none }

/-- A concrete node owning `sampleTaggedBrush`. -/
def sampleTaggedNode : BrushNode :=
  { nodeId := 1, brush := sampleTaggedBrush, vertexCache := CacheState.valid
    issueCache := CacheState.valid }

/-- A concrete kernel whose operations all succeed and leave the brush
unchanged, and whose subtraction yields no fragments. -/
def sampleKernel : BrushKernel :=
  { setFacesB := fun _ _ b => (Except.ok (), b)
    moveVerticesB := fun _ vs _ _ b => (Except.ok vs, b)
    addVertexB := fun _ _ b => (Except.ok 0, b)
    removeVerticesB := fun _ _ b => (Except.ok (), b)
    snapVerticesB := fun _ _ _ b => (Except.ok (), b)
    moveEdgesB := fun _ es _ _ b => (Except.ok es, b)
    moveFacesB := fun _ ps _ _ b => (Except.ok ps, b)
    intersectB := fun _ _ b => (Except.ok (), b)
    findIntegerPlanePointsB := fun _ b => (Except.ok (), b)
    transformB := fun _ _ _ b => (Except.ok (), b)
    subtractB := fun _ _ _ _ => [] }

/-- A concrete kernel whose mutation operations all fail, leaving the brush
as it was, standing for a geometry kernel that throws on every mutation. -/
def sampleFailingKernel : BrushKernel :=
  { setFacesB := fun _ _ b => (Except.error GeometryException.invalidBrush, b)
    moveVerticesB := fun _ _ _ _ b => (Except.error GeometryException.invalidBrush, b)
    addVertexB := fun _ _ b => (Except.error GeometryException.invalidBrush, b)
    removeVerticesB := fun _ _ b => (Except.error GeometryException.invalidBrush, b)
    snapVerticesB := fun _ _ _ b => (Except.error GeometryException.invalidBrush, b)
    moveEdgesB := fun _ _ _ _ b => (Except.error GeometryException.invalidBrush, b)
    moveFacesB := fun _ _ _ _ b => (Except.error GeometryException.invalidBrush, b)
    intersectB := fun _ _ b => (Except.error GeometryException.invalidBrush, b)
    findIntegerPlanePointsB := fun _ b => (Except.error GeometryException.invalidBrush, b)
    transformB := fun _ _ _ b => (Except.error GeometryException.invalidBrush, b)
    subtractB := fun _ _ _ _ => [] }

/-- A concrete query table used to evaluate the theorems on closed inputs. -/
def sampleQueries : BrushQueries :=
  { faceCountQ := fun b => b.faces.length
    vertexCountQ := fun _ => 0
    verticesQ := fun _ => []
    vertexPositionsQ := fun _ => []
    edgeCountQ := fun _ => 0
    edgesQ := fun _ => []
    closedQ := fun _ => true
    fullySpecifiedQ := fun _ => true
    containsPointQ := fun _ _ => false
    hasVertexQ := fun _ _ _ => false
    hasEdgeQ := fun _ _ _ => false
    hasFaceQ := fun _ _ _ => false
    findFaceQ := fun _ _ => none
    incidentFacesQ := fun _ _ => []
    canMoveVerticesQ := fun _ _ _ _ => true
    canAddVertexQ := fun _ _ _ => true
    canRemoveVerticesQ := fun _ _ _ => true
    canSnapVerticesQ := fun _ _ _ => true
    canMoveEdgesQ := fun _ _ _ _ => true
    canMoveFacesQ := fun _ _ _ _ => true
    canTransformQ := fun _ _ _ => true }

/-- A concrete zero vector. -/
def vZero : Vec3 := { x := 0, y := 0, z := 0 }

/-- A concrete unit vector. -/
def vOne : Vec3 := { x := 1, y := 0, z := 0 }

/-- A concrete store holding `sampleNode` at identity zero. -/
def sampleStore : NodeStore :=
  { nodes := fun i => if i = 0 then some sampleNode else none, nextId := 1 }

/-- A concrete ray along the x axis. -/
def sampleRay : Ray :=
  { origin := { x := 0, y := 0, z := 0 }, dir := { x := 1, y := 0, z := 0 } }

/-- A bounding-box intersection test that always misses. -/
def sampleIrbMiss : Ray → Bounds → Option ℚ := fun _ _ => none

/-- A bounding-box intersection test that always hits at distance zero. -/
def sampleIrbHit : Ray → Bounds → Option ℚ := fun _ _ => some 0

/-- A face ray-intersection function that never hits. -/
def sampleFaceMiss : BrushFace → Ray → Option ℚ := fun _ _ => none

end Model

namespace View

/-- A concrete row limited to three cells. -/
def sampleRowLimit3 : LayoutRow :=
  LayoutRow.make 0 0 0 0 100 3 1 1 1 1 1

/-- A concrete row limited to one cell. -/
def sampleRowLimit1 : LayoutRow :=
  LayoutRow.make 0 0 0 0 100 1 1 1 1 1 1

/-- A concrete row with no cell limit. -/
def sampleRowNoLimit : LayoutRow :=
  LayoutRow.make 0 0 0 0 100 0 1 1 1 1 1

end View

namespace Model

theorem count_eq_zero_of_mid {mid : List NodeEvent} {g : NodeEvent}
    (h : ∀ e ∈ mid, e = NodeEvent.vertexCacheInvalidated ∨ e = NodeEvent.issuesInvalidated)
    (hg1 : g ≠ NodeEvent.vertexCacheInvalidated) (hg2 : g ≠ NodeEvent.issuesInvalidated) :
    mid.count g = 0 := by
  rw [List.count_eq_zero]
  intro hmem
  rcases h g hmem with h1 | h1
  · exact hg1 h1
  · exact hg2 h1

theorem firesOnce_of_shape (mid : List NodeEvent)
    (h : ∀ e ∈ mid, e = NodeEvent.vertexCacheInvalidated ∨ e = NodeEvent.issuesInvalidated) :
    firesNotificationsOnce (NodeEvent.nodeChangeAcquired :: NodeEvent.boundsChangeAcquired ::
      ((NodeEvent.brushMutation :: mid)
        ++ [NodeEvent.boundsChangeReleased, NodeEvent.nodeChangeReleased])) := by
  have c1 : mid.count NodeEvent.nodeChangeAcquired = 0 :=
    count_eq_zero_of_mid h (by decide) (by decide)
  have c2 : mid.count NodeEvent.nodeChangeReleased = 0 :=
    count_eq_zero_of_mid h (by decide) (by decide)
  have c3 : mid.count NodeEvent.boundsChangeAcquired = 0 :=
    count_eq_zero_of_mid h (by decide) (by decide)
  have c4 : mid.count NodeEvent.boundsChangeReleased = 0 :=
    count_eq_zero_of_mid h (by decide) (by decide)
  refine ⟨⟨mid, rfl, h⟩, ?_, ?_, ?_, ?_⟩ <;>
    simp [List.count_cons, List.count_append, c1, c2, c3, c4]

theorem mid_mem_vtx :
    ∀ e ∈ [NodeEvent.vertexCacheInvalidated],
      e = NodeEvent.vertexCacheInvalidated ∨ e = NodeEvent.issuesInvalidated := by
  intro e he
  simp only [List.mem_singleton] at he
  exact Or.inl he

theorem mid_mem_iss_vtx :
    ∀ e ∈ [NodeEvent.issuesInvalidated, NodeEvent.vertexCacheInvalidated],
      e = NodeEvent.vertexCacheInvalidated ∨ e = NodeEvent.issuesInvalidated := by
  intro e he
  rcases List.mem_cons.mp he with rfl | he2
  · exact Or.inr rfl
  · simp only [List.mem_singleton] at he2
    exact Or.inl he2

theorem mid_mem_nil :
    ∀ e ∈ ([] : List NodeEvent),
      e = NodeEvent.vertexCacheInvalidated ∨ e = NodeEvent.issuesInvalidated := by
  intro e he
  cases he

theorem withNotifications_trace {α : Type} (body : BrushNode → MethodResult α) (n : BrushNode) :
    (withNotifications body n).2.2 =
      NodeEvent.nodeChangeAcquired :: NodeEvent.boundsChangeAcquired ::
        ((body n).2.2 ++ [NodeEvent.boundsChangeReleased, NodeEvent.nodeChangeReleased]) :=
  rfl

theorem runBrushMutation_trace {α : Type}
    (op : Brush → Except GeometryException α × Brush) (n : BrushNode) :
    (BrushNode.runBrushMutation op n).2.2 =
      NodeEvent.brushMutation ::
        (match (op n.brush).1 with
          | Except.ok _ => [NodeEvent.vertexCacheInvalidated]
          | Except.error _ => ([] : List NodeEvent)) := by
  rcases h : (op n.brush).1 with a | e <;>
    simp [BrushNode.runBrushMutation, BrushNode.invalidateVertexCache, h]

theorem runBrushMutation_firesOnce {α : Type}
    (op : Brush → Except GeometryException α × Brush) (n : BrushNode) :
    firesNotificationsOnce (withNotifications (BrushNode.runBrushMutation op) n).2.2 := by
  rw [withNotifications_trace, runBrushMutation_trace]
  rcases (op n.brush).1 with e | a
  · exact firesOnce_of_shape [] mid_mem_nil
  · exact firesOnce_of_shape [NodeEvent.vertexCacheInvalidated] mid_mem_vtx

theorem setBrush_firesOnce (b : Brush) (n : BrushNode) :
    firesNotificationsOnce (BrushNode.setBrush b n).2.2 :=
  firesOnce_of_shape [NodeEvent.issuesInvalidated, NodeEvent.vertexCacheInvalidated]
    mid_mem_iss_vtx

theorem setFaces_trace (K : BrushKernel) (worldBounds : Bounds)
    (fs : List BrushFace) (n : BrushNode) :
    (BrushNode.setFaces K worldBounds fs n).2.2 =
      NodeEvent.nodeChangeAcquired :: NodeEvent.boundsChangeAcquired ::
        ((NodeEvent.brushMutation ::
          (match (K.setFacesB worldBounds fs n.brush).1 with
            | Except.ok _ => [NodeEvent.issuesInvalidated, NodeEvent.vertexCacheInvalidated]
            | Except.error _ => ([] : List NodeEvent)))
          ++ [NodeEvent.boundsChangeReleased, NodeEvent.nodeChangeReleased]) := by
  rcases h : (K.setFacesB worldBounds fs n.brush).1 with u | e <;>
    simp [BrushNode.setFaces, withNotifications, BrushNode.invalidateIssues,
      BrushNode.invalidateVertexCache, h]

theorem setFaces_firesOnce (K : BrushKernel) (worldBounds : Bounds)
    (fs : List BrushFace) (n : BrushNode) :
    firesNotificationsOnce (BrushNode.setFaces K worldBounds fs n).2.2 := by
  rw [setFaces_trace]
  rcases (K.setFacesB worldBounds fs n.brush).1 with e | u
  · exact firesOnce_of_shape [] mid_mem_nil
  · exact firesOnce_of_shape [NodeEvent.issuesInvalidated, NodeEvent.vertexCacheInvalidated]
      mid_mem_iss_vtx

/-- C1: every public mutating operation on a `BrushNode` (`setBrush`,
`setFaces`, `moveVertices`, `addVertex`, `removeVertices`, `snapVertices`,
`moveEdges`, `moveFaces`, `intersect`, `findIntegerPlanePoints`,
`doTransform`) fires both the node-change and the physical-bounds-change
notification exactly once: each guard is acquired before the brush mutation
runs and released unconditionally after it, on every exit path, including
when the mutation fails. -/
theorem C1_mutators_fire_both_notifications_once
    (K : BrushKernel) (n other : BrushNode) (worldBounds : Bounds) (b : Brush)
    (fs : List BrushFace) (vp : List Vec3) (delta pos : Vec3) (uvLock : Bool)
    (snapToF : ℚ) (es : List (Vec3 × Vec3)) (ps : List (List Vec3)) (m : Mat4)
    (lockTextures : Bool) :
    firesNotificationsOnce (BrushNode.setBrush b n).2.2
    ∧ firesNotificationsOnce (BrushNode.setFaces K worldBounds fs n).2.2
    ∧ firesNotificationsOnce (BrushNode.moveVertices K worldBounds vp delta uvLock n).2.2
    ∧ firesNotificationsOnce (BrushNode.addVertex K worldBounds pos n).2.2
    ∧ firesNotificationsOnce (BrushNode.removeVertices K worldBounds vp n).2.2
    ∧ firesNotificationsOnce (BrushNode.snapVertices K worldBounds snapToF uvLock n).2.2
    ∧ firesNotificationsOnce (BrushNode.moveEdges K worldBounds es delta uvLock n).2.2
    ∧ firesNotificationsOnce (BrushNode.moveFaces K worldBounds ps delta uvLock n).2.2
    ∧ firesNotificationsOnce (BrushNode.intersect K worldBounds n other).1.2.2
    ∧ firesNotificationsOnce (BrushNode.findIntegerPlanePoints K worldBounds n).2.2
    ∧ firesNotificationsOnce (BrushNode.doTransform K m lockTextures worldBounds n).2.2 :=
  ⟨setBrush_firesOnce b n,
    setFaces_firesOnce K worldBounds fs n,
    runBrushMutation_firesOnce _ n,
    runBrushMutation_firesOnce _ n,
    runBrushMutation_firesOnce _ n,
    runBrushMutation_firesOnce _ n,
    runBrushMutation_firesOnce _ n,
    runBrushMutation_firesOnce _ n,
    runBrushMutation_firesOnce _ n,
    runBrushMutation_firesOnce _ n,
    runBrushMutation_firesOnce _ n⟩

theorem runBrushMutation_ok_invalidates {α : Type}
    (op : Brush → Except GeometryException α × Brush) (n : BrushNode) (a : α)
    (h : (withNotifications (BrushNode.runBrushMutation op) n).1 = Except.ok a) :
    (withNotifications (BrushNode.runBrushMutation op) n).2.1.vertexCache = CacheState.invalid
    ∧ (withNotifications (BrushNode.runBrushMutation op) n).2.2.count
        NodeEvent.vertexCacheInvalidated = 1 := by
  rcases h2 : (op n.brush).1 with e | a2
  · exfalso
    revert h
    simp [withNotifications, BrushNode.runBrushMutation, h2]
  · constructor
    · simp [withNotifications, BrushNode.runBrushMutation, BrushNode.invalidateVertexCache, h2]
    · rw [withNotifications_trace, runBrushMutation_trace, h2]
      simp [List.count_cons, List.count_append]

theorem setFaces_ok_invalidates (K : BrushKernel) (worldBounds : Bounds)
    (fs : List BrushFace) (n : BrushNode) (u : Unit)
    (h : (BrushNode.setFaces K worldBounds fs n).1 = Except.ok u) :
    (BrushNode.setFaces K worldBounds fs n).2.1.vertexCache = CacheState.invalid
    ∧ (BrushNode.setFaces K worldBounds fs n).2.2.count
        NodeEvent.vertexCacheInvalidated = 1 := by
  rcases h2 : (K.setFacesB worldBounds fs n.brush).1 with e | u2
  · exfalso
    revert h
    simp [BrushNode.setFaces, withNotifications, h2]
  · constructor
    · simp [BrushNode.setFaces, withNotifications, BrushNode.invalidateIssues,
        BrushNode.invalidateVertexCache, h2]
    · rw [setFaces_trace, h2]
      simp [List.count_cons, List.count_append]

/-- C2: every topology-affecting mutation entry point of the node (`setBrush`,
`setFaces`, `moveVertices`, `addVertex`, `removeVertices`, `snapVertices`,
`moveEdges`, `moveFaces`, `intersect`, `doTransform`,
`findIntegerPlanePoints`) invalidates the render-geometry cache — on every
call that completes, the vertex cache ends up invalid and exactly one
invalidation is recorded — and no read-only query changes the node or emits
any event, hence none invalidates the cache. -/
theorem C2_mutators_invalidate_vertex_cache_reads_do_not
    (K : BrushKernel) (Q : BrushQueries) (n other : BrushNode) (worldBounds : Bounds)
    (b : Brush) (fs : List BrushFace) (vp : List Vec3) (delta pos pt : Vec3)
    (uvLock : Bool) (snapToF epsilon : ℚ) (es : List (Vec3 × Vec3))
    (ps : List (List Vec3)) (m : Mat4) (lockTextures : Bool) (edge : Vec3 × Vec3)
    (poly : List Vec3) (textureName : String) (vtx : Nat) :
    ((BrushNode.setBrush b n).2.1.vertexCache = CacheState.invalid
      ∧ (BrushNode.setBrush b n).2.2.count NodeEvent.vertexCacheInvalidated = 1)
    ∧ (∀ u, (BrushNode.setFaces K worldBounds fs n).1 = Except.ok u →
        (BrushNode.setFaces K worldBounds fs n).2.1.vertexCache = CacheState.invalid
        ∧ (BrushNode.setFaces K worldBounds fs n).2.2.count
            NodeEvent.vertexCacheInvalidated = 1)
    ∧ (∀ a, (BrushNode.moveVertices K worldBounds vp delta uvLock n).1 = Except.ok a →
        (BrushNode.moveVertices K worldBounds vp delta uvLock n).2.1.vertexCache
            = CacheState.invalid
        ∧ (BrushNode.moveVertices K worldBounds vp delta uvLock n).2.2.count
            NodeEvent.vertexCacheInvalidated = 1)
    ∧ (∀ a, (BrushNode.addVertex K worldBounds pos n).1 = Except.ok a →
        (BrushNode.addVertex K worldBounds pos n).2.1.vertexCache = CacheState.invalid
        ∧ (BrushNode.addVertex K worldBounds pos n).2.2.count
            NodeEvent.vertexCacheInvalidated = 1)
    ∧ (∀ a, (BrushNode.removeVertices K worldBounds vp n).1 = Except.ok a →
        (BrushNode.removeVertices K worldBounds vp n).2.1.vertexCache = CacheState.invalid
        ∧ (BrushNode.removeVertices K worldBounds vp n).2.2.count
            NodeEvent.vertexCacheInvalidated = 1)
    ∧ (∀ a, (BrushNode.snapVertices K worldBounds snapToF uvLock n).1 = Except.ok a →
        (BrushNode.snapVertices K worldBounds snapToF uvLock n).2.1.vertexCache
            = CacheState.invalid
        ∧ (BrushNode.snapVertices K worldBounds snapToF uvLock n).2.2.count
            NodeEvent.vertexCacheInvalidated = 1)
    ∧ (∀ a, (BrushNode.moveEdges K worldBounds es delta uvLock n).1 = Except.ok a →
        (BrushNode.moveEdges K worldBounds es delta uvLock n).2.1.vertexCache
            = CacheState.invalid
        ∧ (BrushNode.moveEdges K worldBounds es delta uvLock n).2.2.count
            NodeEvent.vertexCacheInvalidated = 1)
    ∧ (∀ a, (BrushNode.moveFaces K worldBounds ps delta uvLock n).1 = Except.ok a →
        (BrushNode.moveFaces K worldBounds ps delta uvLock n).2.1.vertexCache
            = CacheState.invalid
        ∧ (BrushNode.moveFaces K worldBounds ps delta uvLock n).2.2.count
            NodeEvent.vertexCacheInvalidated = 1)
    ∧ (∀ a, (BrushNode.intersect K worldBounds n other).1.1 = Except.ok a →
        (BrushNode.intersect K worldBounds n other).1.2.1.vertexCache = CacheState.invalid
        ∧ (BrushNode.intersect K worldBounds n other).1.2.2.count
            NodeEvent.vertexCacheInvalidated = 1)
    ∧ (∀ a, (BrushNode.findIntegerPlanePoints K worldBounds n).1 = Except.ok a →
        (BrushNode.findIntegerPlanePoints K worldBounds n).2.1.vertexCache
            = CacheState.invalid
        ∧ (BrushNode.findIntegerPlanePoints K worldBounds n).2.2.count
            NodeEvent.vertexCacheInvalidated = 1)
    ∧ (∀ a, (BrushNode.doTransform K m lockTextures worldBounds n).1 = Except.ok a →
        (BrushNode.doTransform K m lockTextures worldBounds n).2.1.vertexCache
            = CacheState.invalid
        ∧ (BrushNode.doTransform K m lockTextures worldBounds n).2.2.count
            NodeEvent.vertexCacheInvalidated = 1)
    ∧ (BrushNode.faceCount Q n).2 = (n, [])
    ∧ (BrushNode.getFaces n).2 = (n, [])
    ∧ (BrushNode.vertexCount Q n).2 = (n, [])
    ∧ (BrushNode.vertices Q n).2 = (n, [])
    ∧ (BrushNode.vertexPositions Q n).2 = (n, [])
    ∧ (BrushNode.edgeCount Q n).2 = (n, [])
    ∧ (BrushNode.edges Q n).2 = (n, [])
    ∧ (BrushNode.closed Q n).2 = (n, [])
    ∧ (BrushNode.fullySpecified Q n).2 = (n, [])
    ∧ (BrushNode.containsPoint Q pt n).2 = (n, [])
    ∧ (BrushNode.hasVertex Q pt epsilon n).2 = (n, [])
    ∧ (BrushNode.hasEdge Q edge epsilon n).2 = (n, [])
    ∧ (BrushNode.hasFace Q poly epsilon n).2 = (n, [])
    ∧ (BrushNode.findFace Q textureName n).2 = (n, [])
    ∧ (BrushNode.incidentFaces Q vtx n).2 = (n, [])
    ∧ (BrushNode.canMoveVertices Q worldBounds vp delta n).2 = (n, [])
    ∧ (BrushNode.canAddVertex Q worldBounds pos n).2 = (n, [])
    ∧ (BrushNode.canRemoveVertices Q worldBounds vp n).2 = (n, [])
    ∧ (BrushNode.canSnapVertices Q worldBounds snapToF n).2 = (n, [])
    ∧ (BrushNode.canMoveEdges Q worldBounds es delta n).2 = (n, [])
    ∧ (BrushNode.canMoveFaces Q worldBounds ps delta n).2 = (n, [])
    ∧ (BrushNode.canTransform Q m worldBounds n).2 = (n, []) :=
  ⟨⟨rfl, by rfl⟩,
    fun u h => setFaces_ok_invalidates K worldBounds fs n u h,
    fun a h => runBrushMutation_ok_invalidates _ n a h,
    fun a h => runBrushMutation_ok_invalidates _ n a h,
    fun a h => runBrushMutation_ok_invalidates _ n a h,
    fun a h => runBrushMutation_ok_invalidates _ n a h,
    fun a h => runBrushMutation_ok_invalidates _ n a h,
    fun a h => runBrushMutation_ok_invalidates _ n a h,
    fun a h => runBrushMutation_ok_invalidates _ n a h,
    fun a h => runBrushMutation_ok_invalidates _ n a h,
    fun a h => runBrushMutation_ok_invalidates _ n a h,
    rfl, rfl, rfl, rfl, rfl, rfl, rfl, rfl, rfl, rfl, rfl, rfl, rfl, rfl, rfl,
    rfl, rfl, rfl, rfl, rfl, rfl, rfl⟩

/-- Witness for C2: on a concrete node and kernel, a successful `moveVertices`
leaves the vertex cache invalid with exactly one recorded invalidation, and
`setBrush` leaves the vertex cache invalid. -/
theorem C2_witness :
    ((BrushNode.moveVertices sampleKernel sampleBounds [] vOne false
        sampleNode).2.1.vertexCache = CacheState.invalid
      ∧ (BrushNode.moveVertices sampleKernel sampleBounds [] vOne false
          sampleNode).2.2.count NodeEvent.vertexCacheInvalidated = 1)
    ∧ (BrushNode.setBrush sampleBrush sampleNode).2.1.vertexCache = CacheState.invalid :=
  ⟨(C2_mutators_invalidate_vertex_cache_reads_do_not sampleKernel sampleQueries
      sampleNode sampleNode sampleBounds sampleBrush [] [] vOne vZero vZero
      false 1 1 [] [] { entries := [] } false (vZero, vOne) [] "texture" 0).2.2.1
      [] rfl,
    (C2_mutators_invalidate_vertex_cache_reads_do_not sampleKernel sampleQueries
      sampleNode sampleNode sampleBounds sampleBrush [] [] vOne vZero vZero
      false 1 1 [] [] { entries := [] } false (vZero, vOne) [] "texture" 0).1.1⟩

/-- Counterexample for C2 as frozen: the claim says `invalidateVertexCache`
is called on every mutating call, but a `setFaces` call whose brush mutation
fails (here on a concrete node with a valid cache and a kernel that throws)
propagates the failure, records no cache invalidation, and leaves the vertex
cache valid — the invalidation that follows the mutation in the source is
skipped when the mutation throws. -/
theorem C2_counterexample_failing_setFaces_skips_invalidation :
    (BrushNode.setFaces sampleFailingKernel sampleBounds [] sampleNode).1
        = Except.error GeometryException.invalidBrush
    ∧ (BrushNode.setFaces sampleFailingKernel sampleBounds [] sampleNode).2.1.vertexCache
        = CacheState.valid
    ∧ (BrushNode.setFaces sampleFailingKernel sampleBounds [] sampleNode).2.2.count
        NodeEvent.vertexCacheInvalidated = 0 :=
  ⟨rfl, rfl, by decide⟩

/-- C3: every read-only query on a `BrushNode` (`faceCount`, `faces`,
`vertexCount`, `vertices`, `vertexPositions`, `edgeCount`, `edges`, `closed`,
`fullySpecified`, `containsPoint`, `hasVertex`, `hasEdge`, `hasFace`,
`findFace`, `incidentFaces` and the `canMoveVertices`, `canMoveEdges`,
`canMoveFaces`, `canAddVertex`, `canRemoveVertices`, `canSnapVertices`,
`canTransform` predicates) leaves the node's state unchanged and emits no
event — in particular no node-change or bounds-change notification and no
cache invalidation. -/
theorem C3_read_only_queries_leave_node_unchanged
    (Q : BrushQueries) (n : BrushNode) (worldBounds : Bounds) (vp : List Vec3)
    (delta pos pt : Vec3) (snapToF epsilon : ℚ) (es : List (Vec3 × Vec3))
    (ps : List (List Vec3)) (m : Mat4) (edge : Vec3 × Vec3) (poly : List Vec3)
    (textureName : String) (vtx : Nat) :
    (BrushNode.faceCount Q n).2 = (n, [])
    ∧ (BrushNode.getFaces n).2 = (n, [])
    ∧ (BrushNode.vertexCount Q n).2 = (n, [])
    ∧ (BrushNode.vertices Q n).2 = (n, [])
    ∧ (BrushNode.vertexPositions Q n).2 = (n, [])
    ∧ (BrushNode.edgeCount Q n).2 = (n, [])
    ∧ (BrushNode.edges Q n).2 = (n, [])
    ∧ (BrushNode.closed Q n).2 = (n, [])
    ∧ (BrushNode.fullySpecified Q n).2 = (n, [])
    ∧ (BrushNode.containsPoint Q pt n).2 = (n, [])
    ∧ (BrushNode.hasVertex Q pt epsilon n).2 = (n, [])
    ∧ (BrushNode.hasEdge Q edge epsilon n).2 = (n, [])
    ∧ (BrushNode.hasFace Q poly epsilon n).2 = (n, [])
    ∧ (BrushNode.findFace Q textureName n).2 = (n, [])
    ∧ (BrushNode.incidentFaces Q vtx n).2 = (n, [])
    ∧ (BrushNode.canMoveVertices Q worldBounds vp delta n).2 = (n, [])
    ∧ (BrushNode.canAddVertex Q worldBounds pos n).2 = (n, [])
    ∧ (BrushNode.canRemoveVertices Q worldBounds vp n).2 = (n, [])
    ∧ (BrushNode.canSnapVertices Q worldBounds snapToF n).2 = (n, [])
    ∧ (BrushNode.canMoveEdges Q worldBounds es delta n).2 = (n, [])
    ∧ (BrushNode.canMoveFaces Q worldBounds ps delta n).2 = (n, [])
    ∧ (BrushNode.canTransform Q m worldBounds n).2 = (n, []) :=
  ⟨rfl, rfl, rfl, rfl, rfl, rfl, rfl, rfl, rfl, rfl, rfl, rfl, rfl, rfl, rfl,
    rfl, rfl, rfl, rfl, rfl, rfl, rfl⟩

/-- C4: `subtract` leaves the minuend node (brush, faces and caches)
unchanged and emits no event, and returns exactly one new node per fragment
brush produced by the kernel, each constructed through the supplied factory's
`createBrush` capability; in particular the result has exactly as many nodes
as there are fragments, so it may hold zero or more nodes. -/
theorem C4_subtract_returns_factory_node_per_fragment
    (K : BrushKernel) (factory : ModelFactory) (worldBounds : Bounds)
    (defaultTextureName : String) (subtrahends : List BrushNode) (n : BrushNode) :
    (BrushNode.subtract K factory worldBounds defaultTextureName subtrahends n).2.1 = n
    ∧ (BrushNode.subtract K factory worldBounds defaultTextureName subtrahends n).2.2 = []
    ∧ (BrushNode.subtract K factory worldBounds defaultTextureName subtrahends n).1
        = (K.subtractB worldBounds defaultTextureName
            (subtrahends.map (fun node => node.brush)) n.brush).map factory.createBrush
    ∧ (BrushNode.subtract K factory worldBounds defaultTextureName subtrahends n).1.length
        = (K.subtractB worldBounds defaultTextureName
            (subtrahends.map (fun node => node.brush)) n.brush).length :=
  ⟨rfl, rfl, rfl, List.length_map _ _⟩

/-- C5: `intersect` mutates the receiver's brush in place through the kernel,
bracketed by the node-change and physical-bounds-change notifications, and
returns the argument node entirely unchanged. -/
theorem C5_intersect_mutates_receiver_leaves_argument_unchanged
    (K : BrushKernel) (worldBounds : Bounds) (n other : BrushNode) :
    (BrushNode.intersect K worldBounds n other).2 = other
    ∧ firesNotificationsOnce (BrushNode.intersect K worldBounds n other).1.2.2
    ∧ (BrushNode.intersect K worldBounds n other).1.2.1.brush
        = (K.intersectB worldBounds other.brush n.brush).2
    ∧ (BrushNode.intersect K worldBounds n other).1.2.1.nodeId = n.nodeId := by
  refine ⟨rfl, runBrushMutation_firesOnce _ n, ?_, ?_⟩ <;>
    rcases h : (K.intersectB worldBounds other.brush n.brush).1 with e | u <;>
      simp [BrushNode.intersect, withNotifications, BrushNode.runBrushMutation,
        BrushNode.invalidateVertexCache, h]

/-- C6: every node owns exactly one brush that is never shared — constructing
a node from a brush, and `setBrush`, set the brush's back-pointer to that
node; cloning produces a new node owning an independent copy of the brush
(equal to the original's brush except for the back-pointer, which refers to
the clone), and in a well-formed store, mutating the clone in any way leaves
the original node unchanged. -/
theorem C6_node_owns_unshared_brush_and_clone_is_independent
    (i freshId : Nat) (b : Brush) (n : BrushNode) (s : NodeStore) (origId : Nat)
    (orig : BrushNode) (f : BrushNode → BrushNode)
    (hwf : s.WF) (horig : s.nodes origId = some orig) :
    (BrushNode.mkFromBrush i b).brush.nodeRef = some i
    ∧ (BrushNode.setBrush b n).2.1.brush.nodeRef = some n.nodeId
    ∧ (BrushNode.doClone freshId n).brush = Brush.setNode freshId n.brush
    ∧ (BrushNode.doClone freshId n).brush.nodeRef = some freshId
    ∧ (s.cloneNode origId).nodes s.nextId = some (orig.doClone s.nextId)
    ∧ (s.cloneNode origId).nodes origId = some orig
    ∧ ((s.cloneNode origId).modifyAt s.nextId f).nodes origId = some orig := by
  have hlt : origId < s.nextId := by
    by_contra hc
    rw [hwf origId (Nat.le_of_not_lt hc)] at horig
    cases horig
  have hne : origId ≠ s.nextId := Nat.ne_of_lt hlt
  refine ⟨rfl, rfl, rfl, rfl, ?_, ?_, ?_⟩
  · simp [NodeStore.cloneNode, horig]
  · simp [NodeStore.cloneNode, horig, hne]
  · simp [NodeStore.modifyAt, NodeStore.cloneNode, horig, hne]

/-- Witness for C6: cloning the concrete store's node zero places the copy at
the fresh identity one, and invalidating the clone's cache leaves the
original untouched. -/
theorem C6_witness :
    (BrushNode.mkFromBrush 5 sampleBrush).brush.nodeRef = some 5
    ∧ (sampleStore.cloneNode 0).nodes 1 = some (sampleNode.doClone 1)
    ∧ ((sampleStore.cloneNode 0).modifyAt 1
        (fun nd => { nd with vertexCache := CacheState.invalid })).nodes 0
        = some sampleNode := by
  have h := C6_node_owns_unshared_brush_and_clone_is_independent 5 1 sampleBrush
    sampleNode sampleStore 0 sampleNode
    (fun nd => { nd with vertexCache := CacheState.invalid })
    (by intro j hj
        have hj1 : (1 : Nat) ≤ j := hj
        show (if j = 0 then some sampleNode else none) = none
        rw [if_neg (by omega)])
    (by rfl)
  exact ⟨h.1, h.2.2.2.2.1, h.2.2.2.2.2.2⟩

theorem acceptAndEscalateFindOwner_eq (l : List SceneNode) :
    acceptAndEscalateFindOwner l = firstEntityOrWorldAncestor l := by
  induction l with
  | nil => rfl
  | cons a rest ih =>
    cases hk : a.kind <;>
      simp [acceptAndEscalateFindOwner, FindBrushOwner.visit, firstEntityOrWorldAncestor,
        List.find?, hk, ih] <;> rfl

/-- C7: `entity` walks the ancestor chain (given nearest first) and returns
exactly the first ancestor that is an entity or world node, skipping layer,
group and brush nodes; in particular it returns `none` when the node has no
parent or when no ancestor matches. -/
theorem C7_entity_is_first_entity_or_world_ancestor (ancestors : List SceneNode) :
    BrushNode.entity ancestors = firstEntityOrWorldAncestor ancestors := by
  cases ancestors with
  | nil => rfl
  | cons p rest =>
    rcases h : firstEntityOrWorldAncestor (p :: rest) with _ | r <;>
      simp [BrushNode.entity, acceptAndEscalateFindOwner_eq, h]

theorem firstFaceHit_eq_firstDefinedHit (hd : BrushFace → Ray → Option ℚ)
    (fs : List BrushFace) (ray : Ray) :
    firstFaceHit hd fs ray = firstDefinedHit hd fs ray := by
  induction fs with
  | nil => rfl
  | cons g rest ih =>
    rcases hg : hd g ray with _ | d <;>
      simp [firstFaceHit, firstDefinedHit, List.find?, hg, ih]

/-- C8: `doPick` adds at most one hit; if the ray misses the node's bounding
box it adds none, no matter what the faces would report; otherwise the added
hit, if any, is the first face in the brush's face order whose ray
intersection distance is defined, together with the point at that distance
along the ray. -/
theorem C8_doPick_adds_at_most_first_defined_face_hit
    (irb : Ray → Bounds → Option ℚ) (hd : BrushFace → Ray → Option ℚ)
    (n : BrushNode) (ray : Ray) (pickResult : List Hit) :
    (BrushNode.doPick irb hd n ray pickResult).length ≤ pickResult.length + 1
    ∧ (irb ray n.brush.bounds = none →
        BrushNode.doPick irb hd n ray pickResult = pickResult)
    ∧ (∀ t, irb ray n.brush.bounds = some t →
        BrushNode.doPick irb hd n ray pickResult =
          Option.elim (firstDefinedHit hd n.brush.faces ray) pickResult
            (fun fd => pickResult ++
              [{ hitType := brushHitType
                 distance := fd.2
                 hitPoint := pointAtDistance ray fd.2
                 hitNodeId := n.nodeId
                 hitFaceId := fd.1.faceId }])) := by
  refine ⟨?_, ?_, ?_⟩
  · rcases h : BrushNode.findFaceHit irb hd n ray with _ | fd <;>
      simp [BrushNode.doPick, h]
  · intro h
    simp [BrushNode.doPick, BrushNode.findFaceHit, h]
  · intro t ht
    rcases hF : firstDefinedHit hd n.brush.faces ray with _ | fd <;>
      simp [BrushNode.doPick, BrushNode.findFaceHit, ht,
        firstFaceHit_eq_firstDefinedHit, hF]

/-- Witness for C8: on a concrete node, a ray that misses the bounding box
adds no hit, and a ray that enters the box adds exactly what the first
defined face hit dictates. -/
theorem C8_witness :
    BrushNode.doPick sampleIrbMiss sampleFaceMiss sampleNode sampleRay [] = []
    ∧ BrushNode.doPick sampleIrbHit sampleFaceMiss sampleNode sampleRay [] =
        Option.elim (firstDefinedHit sampleFaceMiss sampleNode.brush.faces sampleRay) []
          (fun fd => [] ++
            [{ hitType := brushHitType
               distance := fd.2
               hitPoint := pointAtDistance sampleRay fd.2
               hitNodeId := sampleNode.nodeId
               hitFaceId := fd.1.faceId }]) :=
  ⟨(C8_doPick_adds_at_most_first_defined_face_hit sampleIrbMiss sampleFaceMiss
      sampleNode sampleRay []).2.1 rfl,
    (C8_doPick_adds_at_most_first_defined_face_hit sampleIrbHit sampleFaceMiss
      sampleNode sampleRay []).2.2 0 rfl⟩

theorem foldl_faces_land_testBit (fs : List BrushFace) (a : Nat) (i : Nat) :
    (fs.foldl (fun acc f => acc &&& f.tagMask) a).testBit i
      = (a.testBit i && fs.all (fun f => f.tagMask.testBit i)) := by
  induction fs generalizing a with
  | nil => simp
  | cons f rest ih => simp [List.foldl, ih, Nat.testBit_and, Bool.and_assoc]

theorem sharedTags_testBit (n : BrushNode) (mask : Nat) (i : Nat) :
    ((n.brush.faces.foldl (fun acc f => acc &&& f.tagMask) tagTypeAnyType)
        &&& mask).testBit i = true ↔
      (i < 64 ∧ (∀ f ∈ n.brush.faces, f.tagMask.testBit i = true)
        ∧ mask.testBit i = true) := by
  rw [Nat.testBit_and, foldl_faces_land_testBit,
    show tagTypeAnyType = 2 ^ 64 - 1 from rfl, Nat.testBit_two_pow_sub_one]
  simp [List.all_eq_true, and_assoc]

/-- C9: on a node with no faces, `allFacesHaveAnyTagInMask` is true for every
non-zero (64-bit) mask because the shared-tag conjunction starts from the
all-bits-set mask, while `anyFaceHasAnyTag` and `anyFacesHaveAnyTagInMask`
are false; in general `allFacesHaveAnyTagInMask` is true exactly when some
bit of the mask is set in the tag mask of every face. -/
theorem C9_face_tag_mask_queries (n : BrushNode) (mask : Nat) (hm : mask < 2 ^ 64) :
    (n.brush.faces = [] →
      ((mask ≠ 0 → n.allFacesHaveAnyTagInMask mask = true)
        ∧ n.anyFaceHasAnyTag = false
        ∧ n.anyFacesHaveAnyTagInMask mask = false))
    ∧ (n.allFacesHaveAnyTagInMask mask = true ↔
        ∃ i, mask.testBit i = true ∧ ∀ f ∈ n.brush.faces, f.tagMask.testBit i = true) := by
  have hiff : n.allFacesHaveAnyTagInMask mask = true ↔
      ∃ i, mask.testBit i = true ∧ ∀ f ∈ n.brush.faces, f.tagMask.testBit i = true := by
    unfold BrushNode.allFacesHaveAnyTagInMask
    rw [decide_eq_true_iff]
    constructor
    · intro hA
      obtain ⟨i, hbit⟩ := Nat.ne_zero_implies_bit_true hA
      rw [sharedTags_testBit] at hbit
      exact ⟨i, hbit.2.2, hbit.2.1⟩
    · rintro ⟨i, hmask, hall⟩
      have h64 : i < 64 := by
        by_contra hge
        have hlt : mask < 2 ^ i :=
          lt_of_lt_of_le hm (Nat.pow_le_pow_right (by norm_num) (Nat.le_of_not_lt hge))
        rw [Nat.testBit_lt_two_pow hlt] at hmask
        cases hmask
      intro hzero
      have htrue := (sharedTags_testBit n mask i).mpr ⟨h64, hall, hmask⟩
      rw [hzero, Nat.zero_testBit] at htrue
      cases htrue
  refine ⟨?_, hiff⟩
  intro hempty
  refine ⟨?_, ?_, ?_⟩
  · intro hmz
    rw [hiff]
    obtain ⟨i, hbit⟩ := Nat.ne_zero_implies_bit_true hmz
    exact ⟨i, hbit, by simp [hempty]⟩
  · simp [BrushNode.anyFaceHasAnyTag, hempty]
  · simp [BrushNode.anyFacesHaveAnyTagInMask, hempty]

/-- Witness for C9: the concrete two-face node shares bit zero across both
face tag masks, and the faceless concrete node reports no tagged face while
agreeing with every non-zero mask. -/
theorem C9_witness :
    BrushNode.allFacesHaveAnyTagInMask sampleTaggedNode 1 = true
    ∧ BrushNode.allFacesHaveAnyTagInMask sampleNode 1 = true
    ∧ BrushNode.anyFaceHasAnyTag sampleNode = false
    ∧ BrushNode.anyFacesHaveAnyTagInMask sampleNode 1 = false :=
  ⟨(C9_face_tag_mask_queries sampleTaggedNode 1 (by norm_num)).2.mpr
      ⟨0, by decide, by decide⟩,
    ((C9_face_tag_mask_queries sampleNode 1 (by norm_num)).1 rfl).1 (by decide),
    ((C9_face_tag_mask_queries sampleNode 1 (by norm_num)).1 rfl).2.1,
    ((C9_face_tag_mask_queries sampleNode 1 (by norm_num)).1 rfl).2.2⟩

end Model

namespace View

theorem addItem_maxCells (r : LayoutRow) (iw ihh tw th : ℚ) :
    (r.addItem iw ihh tw th).maxCells = r.maxCells := by
  simp only [LayoutRow.addItem]
  split_ifs <;> simp [LayoutRow.readjustItems]

theorem addItem_cells_length (r : LayoutRow) (iw ihh tw th : ℚ) :
    (r.addItem iw ihh tw th).cells.length = r.cells.length + 1 := by
  simp only [LayoutRow.addItem]
  split_ifs <;> simp [LayoutRow.readjustItems]

theorem canAddItem_false_of_full (r : LayoutRow) (iw ihh tw th : ℚ)
    (h1 : 0 < r.maxCells) (h2 : r.maxCells - 1 ≤ r.cells.length) :
    r.canAddItem iw ihh tw th = false := by
  unfold LayoutRow.canAddItem
  split_ifs with hc1 hc2
  · rfl
  · rfl
  · exact absurd ⟨h1, h2⟩ hc2

theorem reachable_cells_bound (r : LayoutRow) (h : ReachableRow r) :
    0 < r.maxCells → r.cells.length ≤ r.maxCells - 1 := by
  induction h with
  | init x y cm tm mw mc mus mnw mxw mnh mxh =>
    intro _
    simp [LayoutRow.make]
  | add r iw ihh tw th hr hc ih2 =>
    intro hpos
    rw [addItem_maxCells] at hpos
    rw [addItem_cells_length, addItem_maxCells]
    have hnot : ¬(0 < r.maxCells ∧ r.maxCells - 1 ≤ r.cells.length) := by
      intro hcon
      rw [canAddItem_false_of_full r iw ihh tw th hcon.1 hcon.2] at hc
      cases hc
    have hlen : r.cells.length < r.maxCells - 1 := by
      rcases Nat.lt_or_ge r.cells.length (r.maxCells - 1) with hl | hg
      · exact hl
      · exact absurd ⟨hpos, hg⟩ hnot
    omega

theorem canAddItem_zero_iff (r : LayoutRow) (iw ihh tw th : ℚ) (h0 : r.maxCells = 0) :
    (r.canAddItem iw ihh tw th = false ↔
      (¬r.cells.isEmpty = true ∧ r.maxWidth < r.extendedWidth iw ihh tw th)) := by
  unfold LayoutRow.canAddItem
  split_ifs with hc1 hc2
  · exact iff_of_true rfl ⟨hc1.2.2, hc1.2.1⟩
  · rw [h0] at hc2
    exact absurd hc2.1 (lt_irrefl 0)
  · refine iff_of_false (by intro hc; cases hc) ?_
    intro hcon
    exact hc1 ⟨h0, hcon.2, hcon.1⟩

theorem canAddItem_first_cell (r : LayoutRow) (iw ihh tw th : ℚ)
    (h0 : r.maxCells = 0) (hempty : r.cells = []) :
    r.canAddItem iw ihh tw th = true := by
  unfold LayoutRow.canAddItem
  split_ifs with hc1 hc2
  · exact (hc1.2.2 (by simp [hempty])).elim
  · rw [h0] at hc2
    exact absurd hc2.1 (lt_irrefl 0)
  · rfl

/-- C10: with a positive cell limit, `canAddItem` returns false as soon as
the row already holds `maxCells - 1` cells, so under the
`canAddItem`/`addItem` protocol a row never holds more than `maxCells - 1`
cells; with a zero cell limit the row is limited only by `maxWidth` — the
call fails exactly when a non-empty row would overflow it — and a width
overflow is ignored for the first cell of a row. -/
theorem C10_row_respects_cell_limit
    (r : LayoutRow) (itemWidth itemHeight titleWidth titleHeight : ℚ) :
    (0 < r.maxCells → r.maxCells - 1 ≤ r.cells.length →
      r.canAddItem itemWidth itemHeight titleWidth titleHeight = false)
    ∧ (ReachableRow r → 0 < r.maxCells → r.cells.length ≤ r.maxCells - 1)
    ∧ (r.maxCells = 0 →
        (r.canAddItem itemWidth itemHeight titleWidth titleHeight = false ↔
          (¬r.cells.isEmpty = true
            ∧ r.maxWidth < r.extendedWidth itemWidth itemHeight titleWidth titleHeight)))
    ∧ (r.maxCells = 0 → r.cells = [] →
        r.canAddItem itemWidth itemHeight titleWidth titleHeight = true) :=
  ⟨fun h1 h2 => canAddItem_false_of_full r itemWidth itemHeight titleWidth titleHeight h1 h2,
    fun hr hp => reachable_cells_bound r hr hp,
    fun h0 => canAddItem_zero_iff r itemWidth itemHeight titleWidth titleHeight h0,
    fun h0 he => canAddItem_first_cell r itemWidth itemHeight titleWidth titleHeight h0 he⟩

/-- Witness for C10: the freshly made three-cell-limit row respects the
bound, the one-cell-limit row refuses its first item, and the unlimited row
accepts an oversized first item. -/
theorem C10_witness :
    sampleRowLimit3.cells.length ≤ sampleRowLimit3.maxCells - 1
    ∧ sampleRowLimit1.canAddItem 1 1 1 1 = false
    ∧ sampleRowNoLimit.canAddItem 1000 1 1 1 = true :=
  ⟨(C10_row_respects_cell_limit sampleRowLimit3 1 1 1 1).2.1
      (ReachableRow.init 0 0 0 0 100 3 1 1 1 1 1) (by decide),
    (C10_row_respects_cell_limit sampleRowLimit1 1 1 1 1).1 (by decide) (by decide),
    (C10_row_respects_cell_limit sampleRowNoLimit 1000 1 1 1).2.2.2 rfl rfl⟩

end View

end TrenchBroom
